import Mathlib

set_option maxRecDepth 40000

/-!
# Verification of the crisis-detection indicator pipeline

Shallow embedding of src/main.py: a batch pipeline that aligns daily
closing prices for six instruments, derives ratio/rolling-statistic
indicators, evaluates four boolean triggers, and classifies the result
into a risk level.

Prices are modelled as rationals. A pandas NaN (an undefined rolling
value) is modelled as `none : Option ℚ`; every comparison in which one
side is `none` evaluates to `false`, and arithmetic on `none` yields
`none`, mirroring the IEEE-754 NaN semantics used by the script.
-/

namespace Crisis

/-- One fully populated row of the aligned table (`df` after dropna):
closing prices for XLG, RSP, HYG, IEF, JPY=X and GSPC. -/
structure Row where
  xlg : ℚ
  rsp : ℚ
  hyg : ℚ
  ief : ℚ
  jpy : ℚ
  gspc : ℚ
deriving DecidableEq

/-- One row of the raw downloaded table: any instrument may lack an
observation on a given day (`none` = missing / NaN). -/
structure RawRow where
  xlg : Option ℚ
  rsp : Option ℚ
  hyg : Option ℚ
  ief : Option ℚ
  jpy : Option ℚ
  gspc : Option ℚ
deriving DecidableEq

/-- The constant DISTORTION_THRESHOLD of the CONSTANTS map. -/
def DISTORTION_THRESHOLD : ℚ := 0.15

/-- The constant CREDIT_LOOKBACK of the CONSTANTS map. -/
def CREDIT_LOOKBACK : ℕ := 20

/-- The constant YEN_SHOCK_THRESHOLD of the CONSTANTS map. -/
def YEN_SHOCK_THRESHOLD : ℚ := -0.03

/-- The constant RATE_SHOCK_THRESHOLD of the CONSTANTS map. -/
def RATE_SHOCK_THRESHOLD : ℚ := -0.02

/-- The constant SPX_FILTER_THRESHOLD of the CONSTANTS map. -/
def SPX_FILTER_THRESHOLD : ℚ := 0.0

/-- The latest observation of a series (iloc at index -1), `none` on an
empty series. -/
def lastVal (xs : List ℚ) : Option ℚ := xs.getLast?

/-- The trailing window of `w` observations ending at the last index. -/
def takeLast (w : ℕ) (xs : List ℚ) : List ℚ := xs.drop (xs.length - w)

/-- The last entry of rolling(w).mean(): defined iff the series holds at
least `w` observations (pandas default min_periods = window), else NaN. -/
def rollingMeanLast (w : ℕ) (xs : List ℚ) : Option ℚ :=
  if 0 < w ∧ w ≤ xs.length then some ((takeLast w xs).sum / (w : ℚ)) else none

/-- The last entry of rolling(w).min(): defined iff the series holds at
least `w` observations, else NaN. -/
def rollingMinLast (w : ℕ) (xs : List ℚ) : Option ℚ :=
  if 0 < w ∧ w ≤ xs.length then
    match takeLast w xs with
    | [] => none
    | y :: ys => some (ys.foldl min y)
  else none

/-- The last entry of pct_change(n): currentValue / valueNPeriodsAgo - 1,
defined iff the series holds at least `n + 1` observations, else NaN. -/
def pctChangeLast (n : ℕ) (xs : List ℚ) : Option ℚ :=
  if n + 1 ≤ xs.length then
    some (xs.getD (xs.length - 1) 0 / xs.getD (xs.length - 1 - n) 0 - 1)
  else none

/-- NaN-aware division: NaN if either side is NaN. -/
def oDiv : Option ℚ → Option ℚ → Option ℚ
  | some a, some b => some (a / b)
  | _, _ => none

/-- NaN-aware subtraction of the constant 1. -/
def oSub1 : Option ℚ → Option ℚ := Option.map (fun a => a - 1)

/-- NaN-aware multiplication by a constant. -/
def oScale (o : Option ℚ) (c : ℚ) : Option ℚ := o.map (fun a => a * c)

/-- Strictly-less comparison where either side may be NaN: any comparison
with NaN is false. -/
def oLt : Option ℚ → Option ℚ → Bool
  | some a, some b => decide (a < b)
  | _, _ => false

/-- Less-or-equal comparison where either side may be NaN: any comparison
with NaN is false. -/
def oLe : Option ℚ → Option ℚ → Bool
  | some a, some b => decide (a ≤ b)
  | _, _ => false

/-- Strictly-greater comparison where either side may be NaN: any
comparison with NaN is false. -/
def oGt : Option ℚ → Option ℚ → Bool
  | some a, some b => decide (a > b)
  | _, _ => false

/-- Greater-or-equal comparison against a defined threshold: false when
the left side is NaN. -/
def oGeC : Option ℚ → ℚ → Bool
  | some a, t => decide (a ≥ t)
  | none, _ => false

/-- Strictly-less comparison against a defined threshold: false when the
left side is NaN. -/
def oLtC : Option ℚ → ℚ → Bool
  | some a, t => decide (a < t)
  | none, _ => false

/-- The results dictionary produced by `calculate_indicators`: the
latest-index snapshot of every derived series. Fields that pandas may
leave as NaN (rolling statistics, percent changes, and anything derived
from them) are `Option ℚ`. -/
structure Indicators where
  distortion_val : Option ℚ
  distortion_baseline : Option ℚ
  distortion_gap : Option ℚ
  credit_val : Option ℚ
  credit_ma20 : Option ℚ
  credit_min20 : Option ℚ
  spx_price : Option ℚ
  spx_ma50 : Option ℚ
  spx_change_10d : Option ℚ
  yen_change_5d : Option ℚ
  ief_change_10d : Option ℚ
deriving DecidableEq

/-- The function `calculate_indicators` of src/main.py, lines 42 to 81. -/
def calculate_indicators (df : List Row) : Indicators :=
  let distortion_ratio := df.map (fun r => r.xlg / r.rsp)
  let baseline_200 := rollingMeanLast 200 distortion_ratio
  let dist_val := lastVal distortion_ratio
  let current_gap := oSub1 (oDiv dist_val baseline_200)
  let credit_ratio := df.map (fun r => r.hyg / r.ief)
  let spx_price := df.map Row.gspc
  { distortion_val := dist_val
    distortion_baseline := baseline_200
    distortion_gap := current_gap
    credit_val := lastVal credit_ratio
    credit_ma20 := rollingMeanLast CREDIT_LOOKBACK credit_ratio
    credit_min20 := rollingMinLast CREDIT_LOOKBACK credit_ratio
    spx_price := lastVal spx_price
    spx_ma50 := rollingMeanLast 50 spx_price
    spx_change_10d := pctChangeLast 10 spx_price
    yen_change_5d := pctChangeLast 5 (df.map Row.jpy)
    ief_change_10d := pctChangeLast 10 (df.map Row.ief) }

/-- The dictionary returned by `evaluate_logic`: the four named boolean
trigger flags. -/
structure Flags where
  condition : Bool
  trigger_a : Bool
  trigger_b : Bool
  trigger_c : Bool
deriving DecidableEq

/-- The function `evaluate_logic` of src/main.py, lines 83 to 108. -/
def evaluate_logic (indicators : Indicators) : Flags :=
  let is_distorted := oGeC indicators.distortion_gap DISTORTION_THRESHOLD
  let is_credit_low := oLe indicators.credit_val (oScale indicators.credit_min20 1.0001)
  let is_credit_downtrend := oLt indicators.credit_val indicators.credit_ma20
  let is_spx_high := oGt indicators.spx_price indicators.spx_ma50
  let trigger_a := is_credit_downtrend && is_credit_low && is_spx_high
  let trigger_b := oLtC indicators.yen_change_5d YEN_SHOCK_THRESHOLD
  let is_rate_crash := oLtC indicators.ief_change_10d RATE_SHOCK_THRESHOLD
  let is_stock_down := oLtC indicators.spx_change_10d SPX_FILTER_THRESHOLD
  let trigger_c := is_rate_crash && is_stock_down
  { condition := is_distorted
    trigger_a := trigger_a
    trigger_b := trigger_b
    trigger_c := trigger_c }

/-- The four severity levels of the final judgment of `print_report`,
src/main.py lines 198 to 209. -/
inductive RiskLevel where
  | normal
  | overheated
  | warning
  | critical
deriving DecidableEq

/-- The final-judgment cascade of `print_report` (src/main.py lines 198
to 209), extracted as the level it selects. -/
def classify (logic : Flags) : RiskLevel :=
  if logic.trigger_a || logic.trigger_b then .critical
  else if logic.trigger_c then .warning
  else if logic.condition then .overheated
  else .normal

/-- The dropna step at row level: keep the row iff every instrument has
an observation, carrying the observed values through verbatim. -/
def dropnaRow : RawRow → Option Row
  | ⟨some a, some b, some c, some d, some e, some f⟩ => some ⟨a, b, c, d, e, f⟩
  | _ => none

/-- The two fatal outcomes of `fetch_and_process_data`. -/
inductive FetchError where
  | downloadFailed
  | emptyTable
deriving DecidableEq

/-- The function `fetch_and_process_data` of src/main.py, lines 18 to 40,
with the provider call abstracted by its result: `none` when the download
raises, `some raw` when it returns the raw table. Both sys.exit(1) paths
become errors. -/
def fetch_and_process_data : Option (List RawRow) → Except FetchError (List Row)
  | none => .error .downloadFailed
  | some raw =>
    let df := raw.filterMap dropnaRow
    if df.isEmpty then .error .emptyTable else .ok df

/-- The computation core applied to an aligned table: indicators, flags
and level, as in the main block after the fetch. -/
def runPipeline (df : List Row) : Indicators × Flags × RiskLevel :=
  let indicators := calculate_indicators df
  let logic := evaluate_logic indicators
  (indicators, logic, classify logic)

/-- The whole program (the main block, src/main.py lines 217 to 221) as
a function of the provider outcome. -/
def mainOutcome (raw : Option (List RawRow)) :
    Except FetchError (Indicators × Flags × RiskLevel) :=
  match fetch_and_process_data raw with
  | .error e => .error e
  | .ok df => .ok (runPipeline df)

/-- The process exit status: 1 on any sys.exit(1) path, 0 when the report
is produced. -/
def exitCode (raw : Option (List RawRow)) : ℕ :=
  match mainOutcome raw with
  | .error _ => 1
  | .ok _ => 0

/-- Modelled from the spec (section 4.4): the Risk Classifier as the spec
words it — a first-match-wins ordered decision table over the flags:
triggerA OR triggerB gives CRITICAL, else triggerC gives WARNING, else
distortionCondition gives OVERHEATED, else NORMAL. Used only to compare
against `classify`, which is translated from the code. -/
def classifySpec (f : Flags) : RiskLevel :=
  if f.trigger_a = true ∨ f.trigger_b = true then .critical
  else if f.trigger_c = true then .warning
  else if f.condition = true then .overheated
  else .normal

/-- Snapshot for the concrete scenario of claim C3: creditRatio 0.95,
creditMA20 1.00, creditMin20 0.95, benchmarkPrice 110, benchmarkMA50 100
(all other fields undefined). -/
def indsC3 : Indicators :=
  { distortion_val := none, distortion_baseline := none, distortion_gap := none
    credit_val := some 0.95, credit_ma20 := some 1, credit_min20 := some 0.95
    spx_price := some 110, spx_ma50 := some 100
    spx_change_10d := none, yen_change_5d := none, ief_change_10d := none }

/-- Snapshot whose gap sits exactly on the distortion threshold 0.15. -/
def indsC4 : Indicators :=
  { distortion_val := none, distortion_baseline := none, distortion_gap := some 0.15
    credit_val := none, credit_ma20 := none, credit_min20 := none
    spx_price := none, spx_ma50 := none
    spx_change_10d := none, yen_change_5d := none, ief_change_10d := none }

/-- Snapshot whose 5-day funding change sits exactly on the shock
threshold of minus 0.03. -/
def indsC5 : Indicators :=
  { distortion_val := none, distortion_baseline := none, distortion_gap := none
    credit_val := none, credit_ma20 := none, credit_min20 := none
    spx_price := none, spx_ma50 := none
    spx_change_10d := none, yen_change_5d := some (-0.03), ief_change_10d := none }

/-- A constant fully populated row used by concrete tables. -/
def rowC6 : Row := ⟨120, 100, 80, 95, 150, 5000⟩

/-- An 11-row constant table: just enough history for every 10-period
percent change. -/
def tableC6 : List Row :=
  [rowC6, rowC6, rowC6, rowC6, rowC6, rowC6, rowC6, rowC6, rowC6, rowC6, rowC6]

/-- A 200-row table with constant distortion numerator 120 and constant
denominator 100. -/
def tableC7 : List Row := List.replicate 200 rowC6

/-- An all-undefined snapshot, used to witness determinism. -/
def indsC8 : Indicators :=
  ⟨none, none, none, none, none, none, none, none, none, none, none⟩

/-- A one-row aligned table, used to witness determinism. -/
def tableC8 : List Row := [⟨121, 101, 81, 96, 151, 5001⟩]

/-- A raw row with every instrument observed. -/
def rawGood : RawRow := ⟨some 120, some 100, some 80, some 95, some 150, some 5000⟩

/-- A raw row whose XLG observation is missing. -/
def rawBad : RawRow := ⟨none, some 100, some 80, some 95, some 150, some 5000⟩

/-- The fully populated row carried through alignment from `rawGood`. -/
def rowGood : Row := ⟨120, 100, 80, 95, 150, 5000⟩

/-- A raw table of 150 fully observed days: insufficient history for the
200-observation distortion baseline. The failing input of claim C1. -/
def rawsC1 : List RawRow :=
  List.replicate 150 ⟨some 121, some 99, some 79, some 94, some 130, some 4000⟩

/-- The aligned table obtained from `rawsC1`. -/
def dfC1 : List Row := List.replicate 150 ⟨121, 99, 79, 94, 130, 4000⟩

/-- A raw table of 150 fully observed days, the concrete input of the
witness of claim C10. -/
def rawsC10 : List RawRow := List.replicate 150 rawGood

/-- The aligned table obtained from `rawsC10`. -/
def dfC10 : List Row := List.replicate 150 rowGood

/-- A list whose members all equal `c` sums to its length times `c`. -/
theorem sum_of_all_eq {l : List ℚ} {c : ℚ} (h : ∀ x ∈ l, x = c) :
    l.sum = l.length * c := by
  induction l with
  | nil => simp
  | cons a t ih =>
    have ha : a = c := h a (List.mem_cons_self a t)
    have ht : t.sum = t.length * c := ih fun x hx => h x (List.mem_cons_of_mem a hx)
    simp only [List.sum_cons, List.length_cons, ha, ht]
    push_cast
    ring

/-- The last element of a nonempty list whose members all equal `c`. -/
theorem getLast_of_all_eq {l : List ℚ} {c : ℚ} (hne : l ≠ []) (h : ∀ x ∈ l, x = c) :
    l.getLast? = some c := by
  rw [List.getLast?_eq_getLast l hne]
  exact congrArg some (h _ (List.getLast_mem hne))

/-- The rolling mean over a window of a constant series is that constant,
whenever the window is satisfied. -/
theorem rollingMeanLast_of_all_eq {w : ℕ} {l : List ℚ} {c : ℚ} (hw : 0 < w)
    (hlen : w ≤ l.length) (h : ∀ x ∈ l, x = c) :
    rollingMeanLast w l = some c := by
  have hmem : ∀ x ∈ takeLast w l, x = c := fun x hx => h x (List.mem_of_mem_drop hx)
  have hlen2 : (takeLast w l).length = w := by
    simp only [takeLast, List.length_drop]
    omega
  have hcast : (w : ℚ) ≠ 0 := Nat.cast_ne_zero.mpr hw.ne'
  rw [rollingMeanLast, if_pos ⟨hw, hlen⟩, sum_of_all_eq hmem, hlen2,
    mul_div_cancel_left₀ c hcast]

/-- NaN divided from the right yields NaN. -/
theorem oDiv_none_right (x : Option ℚ) : oDiv x none = none := by
  cases x <;> rfl

/-- Core fact shared by claims C1 and C10: on a successfully aligned table
shorter than the 200-observation distortion window, the run completes
(exit status 0), the distortion baseline and gap are NaN, the distortion
comparison evaluates to false, and a full report triple is still
produced. -/
theorem shortHistoryCore {rows : List RawRow} {df : List Row}
    (hok : fetch_and_process_data (some rows) = .ok df)
    (hshort : df.length < 200) :
    exitCode (some rows) = 0 ∧
    (calculate_indicators df).distortion_baseline = none ∧
    (calculate_indicators df).distortion_gap = none ∧
    (evaluate_logic (calculate_indicators df)).condition = false ∧
    mainOutcome (some rows) = .ok (runPipeline df) := by
  have hbase : rollingMeanLast 200 (df.map fun r => r.xlg / r.rsp) = none := by
    rw [rollingMeanLast, if_neg]
    rintro ⟨-, h200⟩
    rw [List.length_map] at h200
    omega
  have hb : (calculate_indicators df).distortion_baseline = none := by
    simp only [calculate_indicators]
    exact hbase
  have hg : (calculate_indicators df).distortion_gap = none := by
    simp only [calculate_indicators, hbase, oDiv_none_right, oSub1, Option.map_none']
  have hc : (evaluate_logic (calculate_indicators df)).condition = false := by
    simp only [evaluate_logic, hg, oGeC]
  have hm : mainOutcome (some rows) = .ok (runPipeline df) := by
    simp only [mainOutcome, hok]
  have he : exitCode (some rows) = 0 := by
    simp only [exitCode, hm]
  exact ⟨he, hb, hg, hc, hm⟩

/-- Claim C1: evaluating the code at the failing input (an aligned table
of 150 observations, fewer than the 200 required by the distortion
baseline): the snapshot computation does NOT fail; it completes with exit
status 0, the baseline and gap are NaN, and the distortion comparison
silently evaluates to false downstream — contradicting the required
InsufficientHistory failure. -/
theorem insufficient_history_no_failure :
    exitCode (some rawsC1) = 0 ∧
    (calculate_indicators dfC1).distortion_baseline = none ∧
    (calculate_indicators dfC1).distortion_gap = none ∧
    (evaluate_logic (calculate_indicators dfC1)).condition = false ∧
    mainOutcome (some rawsC1) = .ok (runPipeline dfC1) :=
  shortHistoryCore (by rfl) (by decide)

/-- Claim C2: the classifier resolves the risk level by first-match-wins
priority — triggerA OR triggerB gives CRITICAL, else triggerC gives
WARNING, else distortionCondition gives OVERHEATED, else NORMAL; flags
with triggerA, triggerC and distortionCondition all true yield CRITICAL,
and all-false flags yield NORMAL. -/
theorem classify_priority :
    (∀ f : Flags, classify f = classifySpec f) ∧
    classify ⟨true, true, false, true⟩ = .critical ∧
    classify ⟨false, false, false, false⟩ = .normal := by
  refine ⟨?_, rfl, rfl⟩
  intro f
  obtain ⟨c, a, b, tc⟩ := f
  cases a <;> cases b <;> cases tc <;> cases c <;> rfl

/-- Claim C3: on a fully defined snapshot, triggerA equals
(creditRatio < creditMA) AND (creditRatio ≤ creditMin times one plus the
low tolerance 0.0001) AND (benchmarkPrice > benchmarkMA50). -/
theorem trigger_a_formula (inds : Indicators) (cv cm cmin p ma : ℚ)
    (h1 : inds.credit_val = some cv) (h2 : inds.credit_ma20 = some cm)
    (h3 : inds.credit_min20 = some cmin) (h4 : inds.spx_price = some p)
    (h5 : inds.spx_ma50 = some ma) :
    (evaluate_logic inds).trigger_a =
      (decide (cv < cm) && decide (cv ≤ cmin * (1 + 0.0001)) && decide (p > ma)) := by
  simp only [evaluate_logic, h1, h2, h3, h4, h5, oLt, oLe, oGt, oScale, Option.map_some']
  norm_num

/-- Witness for claim C3: on the concrete scenario snapshot (creditRatio
0.95, creditMA20 1.00, creditMin20 0.95, benchmarkPrice 110 above
benchmarkMA50 100), triggerA is true. -/
theorem trigger_a_formula_witness : (evaluate_logic indsC3).trigger_a = true := by
  rw [trigger_a_formula indsC3 0.95 1 0.95 110 100 rfl rfl rfl rfl rfl]
  norm_num

/-- Claim C4: on a fully defined snapshot, distortionCondition equals
gap ≥ 0.15, the comparison being inclusive. -/
theorem distortion_condition_formula (inds : Indicators) (g : ℚ)
    (h : inds.distortion_gap = some g) :
    (evaluate_logic inds).condition = decide (g ≥ 0.15) := by
  simp only [evaluate_logic, h, oGeC, DISTORTION_THRESHOLD]

/-- Witness for claim C4: a gap exactly equal to 0.15 makes
distortionCondition true. -/
theorem distortion_condition_formula_witness :
    (evaluate_logic indsC4).condition = true := by
  rw [distortion_condition_formula indsC4 0.15 rfl]
  norm_num

/-- Claim C5: on a fully defined snapshot, triggerB equals
fundingChange5d < minus 0.03, the comparison being strict. -/
theorem trigger_b_formula (inds : Indicators) (y : ℚ)
    (h : inds.yen_change_5d = some y) :
    (evaluate_logic inds).trigger_b = decide (y < -0.03) := by
  simp only [evaluate_logic, h, oLtC, YEN_SHOCK_THRESHOLD]

/-- Witness for claim C5: a 5-day funding change exactly equal to minus
0.03 makes triggerB false. -/
theorem trigger_b_formula_witness : (evaluate_logic indsC5).trigger_b = false := by
  rw [trigger_b_formula indsC5 (-0.03) rfl]
  norm_num

/-- Claim C6: on any aligned table with at least 11 observations, triggerC
equals (creditDenominatorChange10d < minus 0.02) AND
(benchmarkChange10d < 0), where each 10-period percent change is
currentValue divided by the value 10 periods ago, minus 1. -/
theorem trigger_c_formula (df : List Row) (h : 11 ≤ df.length) :
    (evaluate_logic (calculate_indicators df)).trigger_c =
      (decide ((df.map Row.ief).getD (df.length - 1) 0 /
          (df.map Row.ief).getD (df.length - 11) 0 - 1 < -0.02) &&
        decide ((df.map Row.gspc).getD (df.length - 1) 0 /
          (df.map Row.gspc).getD (df.length - 11) 0 - 1 < 0)) := by
  have h11 : (10 + 1 ≤ df.length) = True := eq_true (by omega)
  simp only [evaluate_logic, calculate_indicators, pctChangeLast, List.length_map, h11,
    if_true, oLtC, Nat.sub_sub, RATE_SHOCK_THRESHOLD, SPX_FILTER_THRESHOLD]
  norm_num

/-- Witness for claim C6: an 11-row constant table satisfies the history
bound, and both 10-period changes are 0 there, so triggerC is false. -/
theorem trigger_c_formula_witness :
    11 ≤ tableC6.length ∧
    (evaluate_logic (calculate_indicators tableC6)).trigger_c = false := by
  refine ⟨by decide, ?_⟩
  rw [trigger_c_formula tableC6 (by decide)]
  have e1 : (tableC6.map Row.ief).getD (tableC6.length - 1) 0 = 95 := rfl
  have e2 : (tableC6.map Row.ief).getD (tableC6.length - 11) 0 = 95 := rfl
  have e3 : (tableC6.map Row.gspc).getD (tableC6.length - 1) 0 = 5000 := rfl
  have e4 : (tableC6.map Row.gspc).getD (tableC6.length - 11) 0 = 5000 := rfl
  rw [e1, e2, e3, e4]
  norm_num

/-- Claim C7: on any aligned table of at least 200 observations whose
distortion numerator is constantly 120 and denominator constantly 100,
the snapshot has distortion ratio 1.2, 200-observation baseline 1.2, and
gap ratio/baseline - 1 = 0. -/
theorem distortion_constant_table (df : List Row) (hlen : 200 ≤ df.length)
    (hconst : ∀ r ∈ df, r.xlg = 120 ∧ r.rsp = 100) :
    (calculate_indicators df).distortion_val = some (6 / 5) ∧
    (calculate_indicators df).distortion_baseline = some (6 / 5) ∧
    (calculate_indicators df).distortion_gap = some 0 := by
  have hratio : ∀ x ∈ df.map (fun r => r.xlg / r.rsp), x = 6 / 5 := by
    intro x hx
    obtain ⟨r, hr, rfl⟩ := List.mem_map.mp hx
    obtain ⟨h1, h2⟩ := hconst r hr
    rw [h1, h2]
    norm_num
  have hne : df.map (fun r => r.xlg / r.rsp) ≠ [] := by
    rw [Ne, List.map_eq_nil_iff]
    intro h0
    rw [h0] at hlen
    simp at hlen
  have hval : lastVal (df.map fun r => r.xlg / r.rsp) = some (6 / 5) :=
    getLast_of_all_eq hne hratio
  have hbase : rollingMeanLast 200 (df.map fun r => r.xlg / r.rsp) = some (6 / 5) := by
    refine rollingMeanLast_of_all_eq (by norm_num) ?_ hratio
    rw [List.length_map]
    exact hlen
  refine ⟨?_, ?_, ?_⟩
  · simp only [calculate_indicators]
    exact hval
  · simp only [calculate_indicators]
    exact hbase
  · simp only [calculate_indicators, hval, hbase, oDiv, oSub1, Option.map_some']
    norm_num

/-- Witness for claim C7: the 200-row constant table with numerator 120
and denominator 100 yields ratio 1.2, baseline 1.2 and gap 0. -/
theorem distortion_constant_table_witness :
    (calculate_indicators tableC7).distortion_val = some (6 / 5) ∧
    (calculate_indicators tableC7).distortion_baseline = some (6 / 5) ∧
    (calculate_indicators tableC7).distortion_gap = some 0 :=
  distortion_constant_table tableC7 (by decide)
    (fun r hr => by rw [List.eq_of_mem_replicate hr]; exact ⟨rfl, rfl⟩)

/-- Claim C8: the computation core is deterministic and pure — two runs of
the trigger evaluation on identical snapshots yield identical flags, and
two runs of the full pipeline on identical aligned tables yield identical
snapshot, flags and level. -/
theorem pipeline_deterministic (s t : Indicators) (hst : s = t)
    (df df2 : List Row) (hdf : df = df2) :
    evaluate_logic s = evaluate_logic t ∧ runPipeline df = runPipeline df2 := by
  subst hst
  subst hdf
  exact ⟨rfl, rfl⟩

/-- Witness for claim C8: determinism at a concrete snapshot and a
concrete one-row table. -/
theorem pipeline_deterministic_witness :
    evaluate_logic indsC8 = evaluate_logic indsC8 ∧
    runPipeline tableC8 = runPipeline tableC8 :=
  pipeline_deterministic indsC8 indsC8 rfl tableC8 tableC8 rfl

/-- Claim C9: alignment keeps exactly the rows in which every instrument
has an observation, carrying each value through verbatim (no forward
fill), and the program exits with status 1 when the provider call fails
or when the aligned table has zero rows after dropping. -/
theorem alignment_drops_and_exit (rows : List RawRow) :
    exitCode none = 1 ∧
    (rows.filterMap dropnaRow = [] → exitCode (some rows) = 1) ∧
    (∀ df, fetch_and_process_data (some rows) = .ok df →
      ∀ row ∈ df, ∃ r ∈ rows, r.xlg = some row.xlg ∧ r.rsp = some row.rsp ∧
        r.hyg = some row.hyg ∧ r.ief = some row.ief ∧ r.jpy = some row.jpy ∧
        r.gspc = some row.gspc) ∧
    (∀ r ∈ rows, (r.xlg = none ∨ r.rsp = none ∨ r.hyg = none ∨ r.ief = none ∨
        r.jpy = none ∨ r.gspc = none) → dropnaRow r = none) := by
  refine ⟨rfl, ?_, ?_, ?_⟩
  · intro hempty
    simp [exitCode, mainOutcome, fetch_and_process_data, hempty]
  · intro df hok row hrow
    have hdf : rows.filterMap dropnaRow = df := by
      simp only [fetch_and_process_data] at hok
      by_cases hcase : (rows.filterMap dropnaRow).isEmpty
      · rw [if_pos hcase] at hok
        cases hok
      · rw [if_neg hcase] at hok
        cases hok
        rfl
    rw [← hdf] at hrow
    obtain ⟨r, hr, hdrop⟩ := List.mem_filterMap.mp hrow
    refine ⟨r, hr, ?_⟩
    obtain ⟨x1, x2, x3, x4, x5, x6⟩ := r
    cases x1 <;> cases x2 <;> cases x3 <;> cases x4 <;> cases x5 <;> cases x6 <;>
      simp [dropnaRow] at hdrop
    subst hdrop
    exact ⟨rfl, rfl, rfl, rfl, rfl, rfl⟩
  · intro r hr hmiss
    obtain ⟨x1, x2, x3, x4, x5, x6⟩ := r
    cases x1 <;> cases x2 <;> cases x3 <;> cases x4 <;> cases x5 <;> cases x6 <;>
      simp_all [dropnaRow]

/-- Witness for claim C9: the provider failure exits 1; a one-row raw
table whose only row lacks the XLG observation aligns to zero rows and
exits 1; that row is dropped; and with a fully observed row present, the
aligned output carries its values verbatim. -/
theorem alignment_drops_and_exit_witness :
    exitCode none = 1 ∧ exitCode (some [rawBad]) = 1 ∧ dropnaRow rawBad = none ∧
    ∃ r ∈ [rawGood, rawBad], r.xlg = some rowGood.xlg ∧ r.rsp = some rowGood.rsp ∧
      r.hyg = some rowGood.hyg ∧ r.ief = some rowGood.ief ∧
      r.jpy = some rowGood.jpy ∧ r.gspc = some rowGood.gspc := by
  refine ⟨(alignment_drops_and_exit []).1, (alignment_drops_and_exit [rawBad]).2.1 rfl,
    (alignment_drops_and_exit [rawBad]).2.2.2 rawBad (List.mem_singleton.mpr rfl)
      (Or.inl rfl),
    (alignment_drops_and_exit [rawGood, rawBad]).2.2.1 [rowGood] ?_ rowGood
      (List.mem_singleton.mpr rfl)⟩
  rfl

/-- Claim C10: on any successfully aligned table shorter than the
200-observation distortion window, the program still completes with exit
status 0: the distortion baseline and gap are undefined, the threshold
comparison involving them evaluates to false, and a risk level is still
produced. -/
theorem short_history_silent_success (rows : List RawRow) (df : List Row)
    (hok : fetch_and_process_data (some rows) = .ok df)
    (hshort : df.length < 200) :
    exitCode (some rows) = 0 ∧
    (calculate_indicators df).distortion_baseline = none ∧
    (calculate_indicators df).distortion_gap = none ∧
    (evaluate_logic (calculate_indicators df)).condition = false ∧
    mainOutcome (some rows) = .ok (runPipeline df) :=
  shortHistoryCore hok hshort

/-- Witness for claim C10: 150 fully observed days align to a 150-row
table; the run completes with exit 0, NaN baseline and gap, a false
distortion flag, and a produced report triple. -/
theorem short_history_silent_success_witness :
    exitCode (some rawsC10) = 0 ∧
    (calculate_indicators dfC10).distortion_baseline = none ∧
    (calculate_indicators dfC10).distortion_gap = none ∧
    (evaluate_logic (calculate_indicators dfC10)).condition = false ∧
    mainOutcome (some rawsC10) = .ok (runPipeline dfC10) :=
  short_history_silent_success rawsC10 dfC10 (by rfl) (by decide)

end Crisis
